import Mathlib

/-!
Verification of the task-proxy and streaming service in `app/main.py`.

The embedding models the parsed JSON bodies the handlers manipulate, the
mock response generator `generate_mock_response`, the request pipeline of
the `POST /task` handler `run_task`, the duplicated pipeline of the
`POST /task/send` handler `run_random_task`, and the SSE generator
`event_generator`.  Randomness (`random.choice`, `random.randint`) is made
explicit as parameters; Python exceptions raised while building a
`TaskResponse` (`KeyError` on a missing `"model"` or `"text"` key) are
modelled with `Option`.
-/

namespace Clawdy

/-- One content block of an upstream-shaped body.  In the Python code a
block is a JSON object read with `block.get("type")` and `block["text"]`;
`none` models an absent key. -/
structure ContentBlock where
  type : Option String
  text : Option String
  deriving Repr, DecidableEq

/-- The `"usage"` object of a body: `usage.get("input_tokens")` /
`usage.get("output_tokens")`. -/
structure Usage where
  input_tokens : Option Int
  output_tokens : Option Int
  deriving Repr, DecidableEq

instance : Inhabited Usage := ⟨⟨none, none⟩⟩

/-- A parsed JSON body as consumed by the handlers: `data["model"]`
(raises when absent, hence `Option`), `data.get("content", [])` and
`data.get("usage", {})`. -/
structure Body where
  model : Option String
  content : Option (List ContentBlock)
  usage : Option Usage
  deriving Repr, DecidableEq

/-- `TaskRequest` pydantic model: `task`, `system_prompt` (default
"You are a senior software engineer", nullable), `max_tokens`
(default 1024). -/
structure TaskRequest where
  task : String
  system_prompt : Option String := some "You are a senior software engineer"
  max_tokens : Int := 1024
  deriving Repr, DecidableEq

/-- `TaskResponse` pydantic model. -/
structure TaskResponse where
  model : String
  output_text : String
  input_tokens : Option Int := none
  output_tokens : Option Int := none
  deriving Repr, DecidableEq

/-- The fixed phrase set `MOCK_RESPONSES` of `app/main.py`. -/
def MOCK_RESPONSES : List String :=
  [ "Отличный вопрос! Вот краткое объяснение:",
    "Это сложная тема, но я помогу тебе разобраться.",
    "Позволь мне дать развернутый ответ на это.",
    "Согласно лучшим практикам индустрии:",
    "Вот пошаговое решение:",
    "Это можно реализовать несколькими способами.",
    "Давай разберемся в деталях этого вопроса.",
    "Вот оптимальный подход к этой проблеме:",
    "Основываясь на опыте, рекомендую:",
    "Здесь важно обратить внимание на следующее:" ]

/-- Python `str.split()` with no separator: split on whitespace runs,
discarding empty pieces.  Used for `len(task.split())`. -/
def pySplit (s : String) : List String :=
  (s.split Char.isWhitespace).filter (fun piece => piece ≠ "")

/-- The random draws made by one call of `generate_mock_response`:
`random.choice(MOCK_RESPONSES)` as an index, `random.randint(10, 50)`
and `random.randint(50, 300)`. -/
structure MockParams where
  phraseIdx : Fin MOCK_RESPONSES.length
  r1 : Int
  r2 : Int
  deriving Repr, DecidableEq

/-- The ranges `random.randint` guarantees for the two draws. -/
def MockParams.Valid (p : MockParams) : Prop :=
  10 ≤ p.r1 ∧ p.r1 ≤ 50 ∧ 50 ≤ p.r2 ∧ p.r2 ≤ 300

instance (p : MockParams) : Decidable p.Valid := by
  unfold MockParams.Valid; infer_instance

/-- `generate_mock_response(task)` of `app/main.py`, with the random
draws passed explicitly. -/
def generate_mock_response (task : String) (p : MockParams) : Body :=
  let response_text := MOCK_RESPONSES.get p.phraseIdx
  let input_tokens : Int := (pySplit task).length + p.r1
  let output_tokens : Int := p.r2
  { model := some "claude-3-opus-20240229",
    content := some
      [ { type := some "text",
          text := some (response_text ++ "\n\n" ++ task.take 100 ++ "...\n\n[AKIONE]") } ],
    usage := some { input_tokens := some input_tokens, output_tokens := some output_tokens } }

/-- The list comprehension
`[block["text"] for block in data.get("content", []) if block.get("type") == "text"]`:
collects the `text` of each block whose `type` is `"text"`, `none` when a
selected block has no `"text"` key (Python `KeyError`). -/
def textBlocksOf : List ContentBlock → Option (List String)
  | [] => some []
  | b :: rest =>
    if b.type = some "text" then
      match b.text with
      | none => none
      | some t => (textBlocksOf rest).map (fun ts => t :: ts)
    else textBlocksOf rest

/-- Building the `TaskResponse` returned by both handlers from a parsed
body: `none` models an uncaught exception (missing `"model"` key or a
text block without `"text"`). -/
def buildTaskResponse (data : Body) : Option TaskResponse :=
  match data.model with
  | none => none
  | some m =>
    match textBlocksOf (data.content.getD []) with
    | none => none
    | some ts =>
      some { model := m,
             output_text := String.intercalate "\n" ts,
             input_tokens := (data.usage.getD default).input_tokens,
             output_tokens := (data.usage.getD default).output_tokens }

/-- `event_generator()` of `app/main.py`, with the index drawn by
`random.choice(STREAM_EVENTS)` passed explicitly.  Returns the list of
SSE messages yielded over the whole stream, in order. -/
def event_generator (stream_events : List (List String)) (choiceIdx : Nat) : List String :=
  match stream_events with
  | [] => ["event: error\ndata: No events loaded\n\n"]
  | _ :: _ =>
    let events_sequence := stream_events.getD choiceIdx []
    events_sequence.map (fun event => "data: " ++ event ++ "\n\n")
      ++ ["event: done\ndata: Sequence completed\n\n"]

/-- The outcome of the single upstream call of a handler:
an HTTP response with its status, parsed JSON body and raw text
(`response.status_code`, `response.json()`, `response.text`), or one of
the caught network exceptions (`httpx.RequestError`, `httpx.ConnectError`,
`asyncio.TimeoutError`). -/
inductive UpstreamOutcome where
  | response (status : Nat) (body : Body) (bodyText : String)
  | networkError
  deriving Repr, DecidableEq

/-- Whether the outcome is an HTTP 200 success. -/
def UpstreamOutcome.isSuccess200 : UpstreamOutcome → Bool
  | .response 200 _ _ => true
  | _ => false

/-- What a handler invocation does after the upstream call: return an
HTTP 200 `TaskResponse`, raise `HTTPException(status, detail)`, or
escape with an uncaught exception (`KeyError` on a malformed body). -/
inductive HandlerResult where
  | ok (resp : TaskResponse)
  | httpError (status : Nat) (detail : String)
  | exn
  deriving Repr, DecidableEq

/-- Wraps `buildTaskResponse`: a `none` build is an uncaught exception. -/
def finishWith (data : Body) : HandlerResult :=
  match buildTaskResponse data with
  | some resp => HandlerResult.ok resp
  | none => HandlerResult.exn

/-- The `POST /task` handler `run_task` of `app/main.py` after the
upstream call has completed with `outcome`, with `USE_MOCK` and the mock
generator's random draws passed explicitly. -/
def run_task (use_mock : Bool) (req : TaskRequest) (outcome : UpstreamOutcome)
    (p : MockParams) : HandlerResult :=
  match outcome with
  | .networkError => finishWith (generate_mock_response req.task p)
  | .response status body bodyText =>
    if status ≠ 200 then
      if status ∈ [401, 403, 500, 503] ∨ use_mock then
        finishWith (generate_mock_response req.task p)
      else
        HandlerResult.httpError status bodyText
    else
      finishWith body

/-- One entry of `TASKS` (`tasks.json`): `task` plus an optional
`system_prompt` key. -/
structure TaskDatasetEntry where
  task : String
  system_prompt : Option String
  deriving Repr, DecidableEq

instance : Inhabited TaskDatasetEntry := ⟨⟨"", none⟩⟩

/-- The `TaskRequest` that `run_random_task` builds from the selected
entry: `random_task_data.get("system_prompt", "You are a senior software
engineer")`, `max_tokens=1024`. -/
def mkRandomTaskRequest (entry : TaskDatasetEntry) : TaskRequest :=
  { task := entry.task,
    system_prompt := some (entry.system_prompt.getD "You are a senior software engineer"),
    max_tokens := 1024 }

/-- The `POST /task/send` handler `run_random_task` of `app/main.py`,
with the index drawn by `random.choice(TASKS)` and the upstream outcome
passed explicitly.  The body after building `req` is a verbatim duplicate
of `run_task`'s pipeline, transcribed here as in the source. -/
def run_random_task (use_mock : Bool) (tasks : List TaskDatasetEntry) (choiceIdx : Nat)
    (outcome : UpstreamOutcome) (p : MockParams) : HandlerResult :=
  match tasks with
  | [] => HandlerResult.httpError 500 "No tasks loaded from tasks.json"
  | _ :: _ =>
    let random_task_data := tasks.getD choiceIdx default
    let req := mkRandomTaskRequest random_task_data
    match outcome with
    | .networkError => finishWith (generate_mock_response req.task p)
    | .response status body bodyText =>
      if status ≠ 200 then
        if status ∈ [401, 403, 500, 503] ∨ use_mock then
          finishWith (generate_mock_response req.task p)
        else
          HandlerResult.httpError status bodyText
      else
        finishWith body

/-- The `TaskResponse` the handlers build from a mock body: the shape of
`generate_mock_response` makes the build total. -/
def mockTaskResponse (task : String) (p : MockParams) : TaskResponse :=
  { model := "claude-3-opus-20240229",
    output_text := MOCK_RESPONSES.get p.phraseIdx ++ "\n\n" ++ task.take 100 ++ "...\n\n[AKIONE]",
    input_tokens := some ((pySplit task).length + p.r1),
    output_tokens := some p.r2 }

theorem finishWith_mock (task : String) (p : MockParams) :
    finishWith (generate_mock_response task p) = HandlerResult.ok (mockTaskResponse task p) := by
  rfl

/-- `buildTaskResponse` on a mock body always succeeds with
`mockTaskResponse`. -/
theorem buildTaskResponse_mock (task : String) (p : MockParams) :
    buildTaskResponse (generate_mock_response task p) = some (mockTaskResponse task p) := by
  rfl

/-- `finishWith` never raises an `HTTPException`. -/
theorem finishWith_ne_httpError (data : Body) (s : Nat) (d : String) :
    finishWith data ≠ HandlerResult.httpError s d := by
  unfold finishWith
  rcases buildTaskResponse data with _ | resp <;> simp

/-- Sample random draws used by the concrete witnesses. -/
def sampleParams : MockParams := ⟨⟨0, by decide⟩, 10, 50⟩

/-- Claim C7: when the event-sequence collection is empty, one invocation
of the `/stream` generator emits exactly one message, `event: error` with
data `No events loaded`, then terminates; no `data:` payload message and
no terminal done message is emitted. -/
theorem stream_empty_emits_single_error (choiceIdx : Nat) :
    event_generator [] choiceIdx = ["event: error\ndata: No events loaded\n\n"] := by
  rfl

/-- Claim C4: for every non-empty event-sequence collection, one
invocation of the `/stream` generator emits exactly one `data: <payload>`
message per payload of the selected sequence, in the stored order of that
sequence, followed by exactly one terminal `event: done` message with data
`Sequence completed`, and nothing else. -/
theorem stream_nonempty_emits_selected_then_done
    (stream_events : List (List String)) (choiceIdx : Nat)
    (hne : stream_events ≠ []) (hidx : choiceIdx < stream_events.length) :
    event_generator stream_events choiceIdx =
      (stream_events.get ⟨choiceIdx, hidx⟩).map (fun event => "data: " ++ event ++ "\n\n")
        ++ ["event: done\ndata: Sequence completed\n\n"] := by
  match stream_events with
  | [] => exact absurd rfl hne
  | s :: rest =>
    show ((s :: rest).getD choiceIdx []).map _ ++ _ = _
    rw [List.getD_eq_getElem _ _ hidx]
    rfl

theorem stream_nonempty_emits_selected_then_done_witness :
    event_generator [["a", "b"]] 0 =
      (([["a", "b"]] : List (List String)).get ⟨0, by decide⟩).map
          (fun event => "data: " ++ event ++ "\n\n")
        ++ ["event: done\ndata: Sequence completed\n\n"] :=
  stream_nonempty_emits_selected_then_done [["a", "b"]] 0 (by decide) (by decide)

/-- Claim C8: when the task dataset collection is empty, every
`POST /task/send` request fails with HTTP status 500 and a detail message
saying no tasks were loaded; the result is this error for every upstream
outcome and every mock draw, so no upstream result is consumed and no
`TaskResponse` is built. -/
theorem task_send_empty_dataset_500 (use_mock : Bool) (choiceIdx : Nat)
    (outcome : UpstreamOutcome) (p : MockParams) :
    run_random_task use_mock [] choiceIdx outcome p =
      HandlerResult.httpError 500 "No tasks loaded from tasks.json" := by
  rfl

/-- Claim C6: for every task text and every admissible set of random
draws, the mock generator returns (it is total, hence never raises) a
body with the fixed model identifier `claude-3-opus-20240229`, exactly
one content block of type `text` whose text is a phrase from the fixed
phrase set followed by the first 100 characters of the task and the fixed
marker suffix, and a usage record with `input_tokens` equal to the task's
word count plus an integer in [10,50] and `output_tokens` an integer in
[50,300]. -/
theorem mock_generator_shape (task : String) (p : MockParams) (h : p.Valid) :
    ∃ phrase r1 r2, phrase ∈ MOCK_RESPONSES ∧
      10 ≤ r1 ∧ r1 ≤ 50 ∧ 50 ≤ r2 ∧ r2 ≤ 300 ∧
      generate_mock_response task p =
        { model := some "claude-3-opus-20240229",
          content := some
            [ { type := some "text",
                text := some (phrase ++ "\n\n" ++ task.take 100 ++ "...\n\n[AKIONE]") } ],
          usage := some { input_tokens := some ((pySplit task).length + r1),
                          output_tokens := some r2 } } := by
  obtain ⟨h1, h2, h3, h4⟩ := h
  exact ⟨MOCK_RESPONSES.get p.phraseIdx, p.r1, p.r2,
    List.get_mem _ p.phraseIdx.1 p.phraseIdx.2, h1, h2, h3, h4, rfl⟩

theorem mock_generator_shape_witness :
    ∃ phrase r1 r2, phrase ∈ MOCK_RESPONSES ∧
      10 ≤ r1 ∧ r1 ≤ 50 ∧ 50 ≤ r2 ∧ r2 ≤ 300 ∧
      generate_mock_response "hello brave world" sampleParams =
        { model := some "claude-3-opus-20240229",
          content := some
            [ { type := some "text",
                text := some (phrase ++ "\n\n" ++ "hello brave world".take 100
                  ++ "...\n\n[AKIONE]") } ],
          usage := some { input_tokens := some ((pySplit "hello brave world").length + r1),
                          output_tokens := some r2 } } :=
  mock_generator_shape "hello brave world" sampleParams (by decide)

/-- Claim C10: for every task text and every mock draw, the `TaskResponse`
built from the mock generator's body has an `output_text` ending with the
fixed marker `[AKIONE]` and has both token counts present. -/
theorem mock_response_identifiable (task : String) (p : MockParams) :
    ∃ resp stem,
      buildTaskResponse (generate_mock_response task p) = some resp ∧
      resp.output_text = stem ++ "[AKIONE]" ∧
      resp.input_tokens ≠ none ∧ resp.output_tokens ≠ none := by
  refine ⟨mockTaskResponse task p,
    MOCK_RESPONSES.get p.phraseIdx ++ "\n\n" ++ task.take 100 ++ "...\n\n",
    buildTaskResponse_mock task p, ?_, by simp [mockTaskResponse], by simp [mockTaskResponse]⟩
  show MOCK_RESPONSES.get p.phraseIdx ++ "\n\n" ++ task.take 100 ++ "...\n\n[AKIONE]" = _
  have hsplit : "...\n\n[AKIONE]" = "...\n\n" ++ "[AKIONE]" := by decide
  rw [hsplit]
  simp [String.append_assoc]

/-- A successful `textBlocksOf` run collects, in order, the `text` of
exactly the blocks whose `type` is `"text"`. -/
theorem textBlocksOf_eq_filter_map : ∀ (content : List ContentBlock) (ts : List String),
    textBlocksOf content = some ts →
    ts = (content.filter (fun b => b.type == some "text")).map (fun b => b.text.getD "") := by
  intro content
  induction content with
  | nil =>
    intro ts h
    simp only [textBlocksOf, Option.some.injEq] at h
    simp [← h]
  | cons b rest ih =>
    intro ts h
    simp only [textBlocksOf] at h
    by_cases hb : b.type = some "text"
    · rw [if_pos hb] at h
      cases ht : b.text with
      | none => rw [ht] at h; exact absurd h (by simp)
      | some t =>
        rw [ht] at h
        cases hrest : textBlocksOf rest with
        | none => rw [hrest] at h; exact absurd h (by simp)
        | some ts' =>
          rw [hrest] at h
          simp only [Option.map_some', Option.some.injEq] at h
          subst h
          simp [List.filter_cons, hb, ht, ih ts' hrest]
    · rw [if_neg hb] at h
      simp [List.filter_cons, hb, ih ts h]

/-- Claim C3: for every response body from which a `TaskResponse` is
built (real or mock alike — both handlers build through
`buildTaskResponse`), `output_text` equals the newline-separated join, in
original order, of the `text` field of exactly those content blocks whose
`type` field equals `"text"`; blocks of any other type contribute
nothing. -/
theorem output_text_joins_text_blocks (body : Body) (resp : TaskResponse)
    (h : buildTaskResponse body = some resp) :
    resp.output_text =
      String.intercalate "\n"
        (((body.content.getD []).filter (fun b => b.type == some "text")).map
          (fun b => b.text.getD "")) := by
  unfold buildTaskResponse at h
  cases hm : body.model with
  | none => rw [hm] at h; exact absurd h (by simp)
  | some m =>
    rw [hm] at h
    cases hts : textBlocksOf (body.content.getD []) with
    | none => rw [hts] at h; exact absurd h (by simp)
    | some ts =>
      rw [hts] at h
      simp only [Option.some.injEq] at h
      rw [← h, ← textBlocksOf_eq_filter_map _ ts hts]

theorem output_text_joins_text_blocks_witness :
    ({ model := "m", output_text := "a\nb",
       input_tokens := none, output_tokens := none } : TaskResponse).output_text =
      String.intercalate "\n"
        ((((some [ { type := some "text", text := some "a" },
                    { type := some "tool_use", text := some "ignored" },
                    { type := some "text", text := some "b" } ] :
              Option (List ContentBlock)).getD []).filter
            (fun b => b.type == some "text")).map (fun b => b.text.getD "")) :=
  output_text_joins_text_blocks
    { model := some "m",
      content := some [ { type := some "text", text := some "a" },
                        { type := some "tool_use", text := some "ignored" },
                        { type := some "text", text := some "b" } ],
      usage := none }
    { model := "m", output_text := "a\nb", input_tokens := none, output_tokens := none }
    (by rfl)

/-- `textBlocksOf` succeeds when every `"text"`-typed block carries a
`"text"` key. -/
theorem textBlocksOf_total : ∀ (content : List ContentBlock),
    (∀ b ∈ content, b.type = some "text" → b.text ≠ none) →
    ∃ ts, textBlocksOf content = some ts := by
  intro content
  induction content with
  | nil => intro _; exact ⟨[], rfl⟩
  | cons b rest ih =>
    intro hall
    obtain ⟨ts, hts⟩ := ih (fun x hx => hall x (List.mem_cons_of_mem b hx))
    by_cases hb : b.type = some "text"
    · cases ht : b.text with
      | none => exact absurd ht (hall b (List.mem_cons_self b rest) hb)
      | some t =>
        refine ⟨t :: ts, ?_⟩
        simp only [textBlocksOf, if_pos hb, ht, hts, Option.map_some']
    · exact ⟨ts, by simp only [textBlocksOf, if_neg hb, hts]⟩

/-- Claim C9: every parsed upstream 200 body carrying a `"model"` field
and whose `"text"`-typed content blocks all carry a `"text"` field makes
the `/task` handler return normally; a body with no `"content"` key
yields an empty `output_text`, and a body with no `"usage"` key yields
absent token counts, with no exception raised on these missing keys. -/
theorem task_build_tolerates_missing_keys (body : Body) (m : String)
    (hm : body.model = some m)
    (ht : ∀ b ∈ body.content.getD [], b.type = some "text" → b.text ≠ none) :
    ∃ resp, buildTaskResponse body = some resp ∧
      run_task false { task := "t" } (UpstreamOutcome.response 200 body "") sampleParams =
        HandlerResult.ok resp ∧
      (body.content = none → resp.output_text = "") ∧
      (body.usage = none → resp.input_tokens = none ∧ resp.output_tokens = none) := by
  obtain ⟨ts, hts⟩ := textBlocksOf_total _ ht
  refine ⟨{ model := m,
            output_text := String.intercalate "\n" ts,
            input_tokens := (body.usage.getD default).input_tokens,
            output_tokens := (body.usage.getD default).output_tokens }, ?_, ?_, ?_, ?_⟩
  · unfold buildTaskResponse
    rw [hm, hts]
  · show finishWith body = _
    unfold finishWith buildTaskResponse
    rw [hm, hts]
  · intro hc
    rw [hc] at hts
    have : ts = [] := by
      simp only [Option.getD_none, textBlocksOf, Option.some.injEq] at hts
      exact hts.symm
    simp [this, String.intercalate]
  · intro hu
    rw [hu]
    exact ⟨rfl, rfl⟩

theorem task_build_tolerates_missing_keys_witness :
    ∃ resp,
      buildTaskResponse { model := some "m", content := none, usage := none } = some resp ∧
      run_task false { task := "t" }
          (UpstreamOutcome.response 200 { model := some "m", content := none, usage := none } "")
          sampleParams = HandlerResult.ok resp ∧
      (({ model := some "m", content := none, usage := none } : Body).content = none →
        resp.output_text = "") ∧
      (({ model := some "m", content := none, usage := none } : Body).usage = none →
        resp.input_tokens = none ∧ resp.output_tokens = none) :=
  task_build_tolerates_missing_keys { model := some "m", content := none, usage := none }
    "m" rfl (by simp)

/-- Claim C5: for every non-empty task dataset and every entry selected
from it, the `POST /task/send` handler's duplicated pipeline produces the
same result as the `POST /task` handler applied to the `TaskRequest`
built from the entry (task = entry's task, system_prompt = entry's
system_prompt or the default `You are a senior software engineer`,
max_tokens = 1024), under the same upstream outcome and mock draws. -/
theorem task_send_refines_task (use_mock : Bool) (tasks : List TaskDatasetEntry)
    (choiceIdx : Nat) (outcome : UpstreamOutcome) (p : MockParams)
    (hidx : choiceIdx < tasks.length) :
    run_random_task use_mock tasks choiceIdx outcome p =
      run_task use_mock (mkRandomTaskRequest (tasks.get ⟨choiceIdx, hidx⟩)) outcome p ∧
    mkRandomTaskRequest (tasks.get ⟨choiceIdx, hidx⟩) =
      { task := (tasks.get ⟨choiceIdx, hidx⟩).task,
        system_prompt :=
          some ((tasks.get ⟨choiceIdx, hidx⟩).system_prompt.getD
            "You are a senior software engineer"),
        max_tokens := 1024 } := by
  refine ⟨?_, rfl⟩
  match tasks, hidx with
  | t :: rest, hidx =>
    show (match outcome with
      | .networkError => finishWith (generate_mock_response
          (mkRandomTaskRequest ((t :: rest).getD choiceIdx default)).task p)
      | .response status body bodyText =>
        if status ≠ 200 then
          if status ∈ [401, 403, 500, 503] ∨ use_mock then
            finishWith (generate_mock_response
              (mkRandomTaskRequest ((t :: rest).getD choiceIdx default)).task p)
          else
            HandlerResult.httpError status bodyText
        else
          finishWith body) = _
    rw [List.getD_eq_getElem _ _ hidx]
    cases outcome <;> rfl

theorem task_send_refines_task_witness :
    run_random_task false [⟨"t1", none⟩] 0 UpstreamOutcome.networkError sampleParams =
      run_task false
        (mkRandomTaskRequest (([⟨"t1", none⟩] : List TaskDatasetEntry).get ⟨0, by decide⟩))
        UpstreamOutcome.networkError sampleParams ∧
    mkRandomTaskRequest (([⟨"t1", none⟩] : List TaskDatasetEntry).get ⟨0, by decide⟩) =
      { task := ((([⟨"t1", none⟩] : List TaskDatasetEntry).get ⟨0, by decide⟩)).task,
        system_prompt :=
          some (((([⟨"t1", none⟩] : List TaskDatasetEntry).get ⟨0, by decide⟩)).system_prompt.getD
            "You are a senior software engineer"),
        max_tokens := 1024 } :=
  task_send_refines_task false [⟨"t1", none⟩] 0 UpstreamOutcome.networkError sampleParams
    (by decide)

/-- A concrete upstream 200 body whose model differs from the mock one. -/
def sampleRealBody : Body :=
  { model := some "real-upstream-model", content := some [], usage := none }

/-- Claim C1, counterexample: with the forced-mock flag enabled, a
`POST /task` request whose upstream call returns HTTP 200 is answered
with the real body, whose model field is not the fixed mock identifier —
so forced mock does not cover the upstream-200 outcome. -/
theorem forced_mock_200_counterexample :
    run_task true { task := "write a function" }
        (UpstreamOutcome.response 200 sampleRealBody "") sampleParams =
      HandlerResult.ok { model := "real-upstream-model", output_text := "",
                         input_tokens := none, output_tokens := none } ∧
    "real-upstream-model" ≠ "claude-3-opus-20240229" := by
  exact ⟨rfl, by decide⟩

/-- Claim C1, amended: whenever the forced-mock flag is enabled, every
`POST /task` request whose upstream outcome is not an HTTP 200 success
(any non-200 status, or a connection error or timeout) returns the
`TaskResponse` built from the mock generator, whose model field is the
fixed mock identifier; an upstream HTTP 200 success instead returns the
real body. -/
theorem forced_mock_non200_yields_mock (req : TaskRequest) (outcome : UpstreamOutcome)
    (p : MockParams) (h : outcome.isSuccess200 = false) :
    run_task true req outcome p = HandlerResult.ok (mockTaskResponse req.task p) ∧
    (mockTaskResponse req.task p).model = "claude-3-opus-20240229" := by
  refine ⟨?_, rfl⟩
  cases outcome with
  | networkError =>
    show finishWith (generate_mock_response req.task p) = _
    exact finishWith_mock _ _
  | response st body bt =>
    have hst : st ≠ 200 := by
      intro hc
      subst hc
      simp [UpstreamOutcome.isSuccess200] at h
    show (if st ≠ 200 then
        (if st ∈ [401, 403, 500, 503] ∨ (true : Bool) then
          finishWith (generate_mock_response req.task p)
        else HandlerResult.httpError st bt)
      else finishWith body) = _
    rw [if_pos hst, if_pos (Or.inr rfl), finishWith_mock]

theorem forced_mock_non200_yields_mock_witness :
    run_task true { task := "t" } UpstreamOutcome.networkError sampleParams =
      HandlerResult.ok (mockTaskResponse "t" sampleParams) ∧
    (mockTaskResponse "t" sampleParams).model = "claude-3-opus-20240229" :=
  forced_mock_non200_yields_mock { task := "t" } UpstreamOutcome.networkError sampleParams rfl

/-- Claim C2: the `/task` handler raises an `HTTPException` (carrying the
upstream status code and the upstream body text as detail) if and only if
the upstream call completed with a status that is neither 200 nor one of
401, 403, 500, 503 and the mock flag is off; upstream statuses 401, 403,
500, 503 and any connection error or timeout instead yield an HTTP 200
response built from the mock generator, never an error. -/
theorem task_error_iff_unmapped_status (use_mock : Bool) (req : TaskRequest)
    (outcome : UpstreamOutcome) (p : MockParams) :
    (∀ s d, run_task use_mock req outcome p = HandlerResult.httpError s d ↔
        ((∃ body, outcome = UpstreamOutcome.response s body d) ∧
         s ≠ 200 ∧ s ∉ ([401, 403, 500, 503] : List Nat) ∧ use_mock = false)) ∧
    (∀ s body d, outcome = UpstreamOutcome.response s body d →
        s ∈ ([401, 403, 500, 503] : List Nat) →
        run_task use_mock req outcome p = HandlerResult.ok (mockTaskResponse req.task p)) ∧
    (outcome = UpstreamOutcome.networkError →
        run_task use_mock req outcome p = HandlerResult.ok (mockTaskResponse req.task p)) := by
  cases outcome with
  | networkError =>
    refine ⟨?_, ?_, ?_⟩
    · intro s d
      constructor
      · intro h
        exact absurd h (finishWith_ne_httpError (generate_mock_response req.task p) s d)
      · rintro ⟨⟨body, hb⟩, -, -, -⟩
        exact UpstreamOutcome.noConfusion hb
    · intro s body d hb _
      exact UpstreamOutcome.noConfusion hb
    · intro _
      show finishWith (generate_mock_response req.task p) = _
      exact finishWith_mock _ _
  | response st body0 bt =>
    have hrt : run_task use_mock req (UpstreamOutcome.response st body0 bt) p =
        (if st ≠ 200 then
          (if st ∈ [401, 403, 500, 503] ∨ use_mock then
            finishWith (generate_mock_response req.task p)
          else HandlerResult.httpError st bt)
        else finishWith body0) := rfl
    by_cases h200 : st = 200
    · subst h200
      rw [if_neg (by simp)] at hrt
      refine ⟨?_, ?_, ?_⟩
      · intro s d
        constructor
        · intro h
          rw [hrt] at h
          exact absurd h (finishWith_ne_httpError body0 s d)
        · rintro ⟨⟨b, hb⟩, hne, -, -⟩
          injection hb with h1 h2 h3
          exact absurd h1.symm hne
      · intro s b d hb hmem
        injection hb with h1 h2 h3
        subst h1
        exact absurd hmem (by decide)
      · intro hc
        exact UpstreamOutcome.noConfusion hc
    · rw [if_pos h200] at hrt
      by_cases hdeg : st ∈ [401, 403, 500, 503] ∨ (use_mock = true)
      · rw [if_pos hdeg, finishWith_mock] at hrt
        refine ⟨?_, ?_, ?_⟩
        · intro s d
          constructor
          · intro h
            rw [hrt] at h
            exact absurd h (by simp)
          · rintro ⟨⟨b, hb⟩, -, hnm, hmock⟩
            injection hb with h1 h2 h3
            subst h1
            rcases hdeg with hmem | htrue
            · exact absurd hmem hnm
            · rw [hmock] at htrue
              exact Bool.noConfusion htrue
        · intro s b d hb hmem
          exact hrt
        · intro hc
          exact UpstreamOutcome.noConfusion hc
      · rw [if_neg hdeg] at hrt
        have hparts := not_or.mp hdeg
        refine ⟨?_, ?_, ?_⟩
        · intro s d
          constructor
          · intro h
            rw [hrt] at h
            injection h with h1 h2
            subst h1
            subst h2
            exact ⟨⟨body0, rfl⟩, h200, hparts.1, Bool.eq_false_iff.mpr hparts.2⟩
          · rintro ⟨⟨b, hb⟩, -, -, -⟩
            injection hb with h1 h2 h3
            subst h1
            subst h2
            subst h3
            exact hrt
        · intro s b d hb hmem
          injection hb with h1 h2 h3
          subst h1
          exact absurd (Or.inl hmem) hdeg
        · intro hc
          exact UpstreamOutcome.noConfusion hc

theorem task_error_iff_unmapped_status_witness :
    run_task false { task := "t" } (UpstreamOutcome.response 418 sampleRealBody "teapot")
        sampleParams =
      HandlerResult.httpError 418 "teapot" :=
  ((task_error_iff_unmapped_status false { task := "t" }
      (UpstreamOutcome.response 418 sampleRealBody "teapot") sampleParams).1 418 "teapot").mpr
    ⟨⟨sampleRealBody, rfl⟩, by decide, by decide, rfl⟩

end Clawdy
